import Mathlib

/-!
Shallow embedding of the FirePi AP/STA provisioning state machine.

Sources embedded here:
* `wifi_scripts/firepi-wifi-switch.sh` — the Credential Switch Executor
  (flock guard, pending-credentials read, AP profile teardown, STA connect,
  bounded 20-iteration poll, success/revert paths).
* `wifi_scripts/firepi-softap.sh` (the `MINUTES="${1:-30}"` variant invoked by
  the switch and watchdog scripts) — the AP Controller: `wifi_connected` guard,
  profile creation, activation, sleep window, conditional teardown, and the
  deterministic SSID/PSK derivation from the interface MAC.
* `firepi-wifi-online.sh` — the Connectivity Watchdog: lock/pending sentinels,
  cooldown check, `is_sta_up`, AP start.
* `static/js/admin.js` — the browser-side prober `waitForRebootAndReload`
  with its `seenDown` edge-trigger state and `pingOnce` probes.

Modelling conventions: each script execution is a pure function of an
environment record carrying the observations the script would obtain from
`nmcli`, the filesystem and the subprocesses it spawns.  Interface
observations are `{ip, state}` pairs; the empty string models a missing
IPv4 address, matching the scripts' `[[ -z "$IP" ]]` tests.  `set -Eeuo
pipefail` aborts are modelled by a distinguished exit status.  Since each
script run is a single sequential process, no external actor mutates the
network state between two of its own steps.
-/

namespace FirePi

/-- One `nmcli dev show` observation of the wifi interface: first IPv4
address (`""` when none) and the numeric `GENERAL.STATE` code. -/
structure IfaceObs where
  ip : String
  state : Nat
deriving Repr, DecidableEq

/-- Bash glob `[[ "$IP" == 10.42.* ]]`: the address starts with `10.42.`. -/
def inApSubnet (ip : String) : Bool :=
  "10.42.".data.isPrefixOf ip.data

/-- The break condition of the switch script's poll loop (line 45) and,
negated, its post-loop failure test (line 49):
`[[ -n "$IP" && "$IP" != 10.42.* && "$STATE" -ge 100 ]]`. -/
def goodObs (o : IfaceObs) : Bool :=
  o.ip != "" && !(inApSubnet o.ip) && Nat.ble 100 o.state

/-- Contents of the pending-credentials JSON as read by the two `jq`
invocations (`.ssid // empty`, `.psk // empty`); a missing key reads as
the empty string. -/
structure Pending where
  ssid : String
  psk : String
deriving Repr, DecidableEq

/-- Observations consumed by one run of `wifi_scripts/firepi-softap.sh`:
whether `nmcli dev status` lists the wifi device as `connected` when
`wifi_connected` is first called, whether `nmcli con up FirePiAP`
succeeds, and the device-connected reading at the post-sleep check
(the just-activated AP also counts as connected there). -/
structure SoftapEnv where
  staConnectedAtEntry : Bool
  apUpOk : Bool
  staConnectedAtTimeout : Bool
deriving Repr, DecidableEq

/-- The AP profile's state in the OS profile store. -/
structure ApState where
  profileExists : Bool
  active : Bool
deriving Repr, DecidableEq

/-- Result of one `firepi-softap.sh` run: resulting AP state, whether the
script exited normally (`false` = aborted by `set -e`), and the seconds
slept by `sleep "$((MINUTES*60))"`. -/
structure SoftapOutcome where
  ap : ApState
  exitOk : Bool
  sleptSeconds : Nat
deriving Repr, DecidableEq

/-- Bash arithmetic evaluation of a word: a decimal numeral evaluates to
itself; an identifier such as `start` or `stop` names an (unset) variable
and evaluates to `0`.  Models `$((MINUTES*60))` for the arguments this
script is actually given. -/
def bashArithNat (s : String) : Nat :=
  (s.toNat?).getD 0

/-- `wifi_scripts/firepi-softap.sh` `main`, lines 94-147 of the script:
`MINUTES="${1:-30}"` (note: the callers pass `start`/`stop` as `$1`, which
evaluates to 0 in the sleep arithmetic); exit early when the device is
already `connected`; otherwise create the `FirePiAP` profile if absent,
activate it (a failure aborts via `set -Eeuo pipefail`), sleep the window,
then tear the AP down only if the device still is not `connected` — and an
active AP itself makes the device `connected`, so a successfully raised AP
is left up. -/
def softapMain (arg1 : String) (env : SoftapEnv) (ap : ApState) : SoftapOutcome :=
  let secs := bashArithNat arg1 * 60
  if env.staConnectedAtEntry then
    { ap := ap, exitOk := true, sleptSeconds := 0 }
  else
    let ap1 : ApState := { profileExists := true, active := ap.active }
    if env.apUpOk then
      let ap2 : ApState := { profileExists := true, active := true }
      if env.staConnectedAtTimeout || ap2.active then
        { ap := ap2, exitOk := true, sleptSeconds := secs }
      else
        { ap := { ap2 with active := false }, exitOk := true, sleptSeconds := secs }
    else
      { ap := ap1, exitOk := false, sleptSeconds := 0 }

/-- Environment of one `firepi-wifi-switch.sh` run: whether another process
holds the flock, the pending file's parsed contents (`none` = absent),
whether `nmcli con show FirePiSTA-$SSID` succeeds, whether
`nmcli dev wifi connect` would succeed, the per-iteration poll
observations, the observations of a spawned `firepi-softap.sh`, and the
AP profile state on entry. -/
structure SwitchEnv where
  lockHeld : Bool
  pendingFile : Option Pending
  staProfileExists : Bool
  connectOk : Bool
  poll : Nat → IfaceObs
  softapEnv : SoftapEnv
  apBefore : ApState

/-- Process exit: a normal `exit n`, or an abort by `set -Eeuo pipefail`
propagating the failing command's nonzero status. -/
inductive ExitStatus where
  | code (n : Nat)
  | errexit
deriving Repr, DecidableEq

/-- Observable outcome of one `firepi-wifi-switch.sh` run.  Action flags
record which effectful lines executed; `lockFileExists` records whether
`instance/wifi_switch.lock` exists after the process exits (the script
creates it with `exec 9>"$LOCK"` and nothing ever removes it). -/
structure SwitchResult where
  exit : ExitStatus
  lockFileExists : Bool
  pendingDeleted : Bool
  apProfileDeleted : Bool
  staConnectAttempted : Bool
  softapStartCalled : Bool
  softapStopCalled : Bool
  cooldownWritten : Bool
  apAfter : ApState
deriving Repr, DecidableEq

/-- First poll iteration `i ∈ [1..20]` whose observation satisfies the
break condition, as in `for i in {1..20}; do ...; [[ ... ]] && break`. -/
def firstGoodIdx (poll : Nat → IfaceObs) : Option Nat :=
  (List.range' 1 20).find? (fun i => goodObs (poll i))

/-- Values of `IP`/`STATE` after the poll loop: the observation at the
break iteration, or the 20th observation when no iteration broke. -/
def finalObs (poll : Nat → IfaceObs) : IfaceObs :=
  poll ((firstGoodIdx poll).getD 20)

/-- `wifi_scripts/firepi-wifi-switch.sh`, lines 9-60.
Paths, in script order: flock contention (`exit 0`, nothing else runs);
missing pending file (`exit 2`); empty SSID (`rm -f "$PENDING"; exit 2`);
AP profile teardown (lines 21-26, all `|| true`) followed by the STA
connect — `nmcli dev wifi connect` is NOT `|| true`-guarded, so its
failure aborts the script via `set -Eeuo pipefail` before the pending
file is removed; then the bounded poll, and either the success path
(`softap stop`, `rm -f $PENDING`, `touch $COOLDOWN`, `exit 0`) or the
revert path (`softap start 30min`, `rm -f $PENDING`, `exit 1`). -/
def runSwitch (env : SwitchEnv) : SwitchResult :=
  if env.lockHeld then
    { exit := .code 0, lockFileExists := true, pendingDeleted := false,
      apProfileDeleted := false, staConnectAttempted := false,
      softapStartCalled := false, softapStopCalled := false,
      cooldownWritten := false, apAfter := env.apBefore }
  else
    match env.pendingFile with
    | none =>
      { exit := .code 2, lockFileExists := true, pendingDeleted := false,
        apProfileDeleted := false, staConnectAttempted := false,
        softapStartCalled := false, softapStopCalled := false,
        cooldownWritten := false, apAfter := env.apBefore }
    | some p =>
      if p.ssid = "" then
        { exit := .code 2, lockFileExists := true, pendingDeleted := true,
          apProfileDeleted := false, staConnectAttempted := false,
          softapStartCalled := false, softapStopCalled := false,
          cooldownWritten := false, apAfter := env.apBefore }
      else
        -- lines 21-26: autoconnect off, down, delete FirePiAP and Hotspot
        let apGone : ApState := { profileExists := false, active := false }
        if !env.staProfileExists && !env.connectOk then
          { exit := .errexit, lockFileExists := true, pendingDeleted := false,
            apProfileDeleted := true, staConnectAttempted := true,
            softapStartCalled := false, softapStopCalled := false,
            cooldownWritten := false, apAfter := apGone }
        else
          if goodObs (finalObs env.poll) then
            let so := softapMain "stop" env.softapEnv apGone
            { exit := .code 0, lockFileExists := true, pendingDeleted := true,
              apProfileDeleted := true, staConnectAttempted := !env.staProfileExists,
              softapStartCalled := false, softapStopCalled := true,
              cooldownWritten := true, apAfter := so.ap }
          else
            let so := softapMain "start" env.softapEnv apGone
            { exit := .code 1, lockFileExists := true, pendingDeleted := true,
              apProfileDeleted := true, staConnectAttempted := !env.staProfileExists,
              softapStartCalled := true, softapStopCalled := false,
              cooldownWritten := false, apAfter := so.ap }

/-- One active connection as listed by
`nmcli -t -f NAME,TYPE,DEVICE con show --active`: profile name, terse
connection type (nmcli prints the wifi type as `802-11-wireless` in
terse output), and the device it is active on. -/
structure ActiveCon where
  name : String
  conType : String
  device : String
deriving Repr, DecidableEq

/-- The terse output line for one active connection: the requested
fields, colon-separated, in order `NAME:TYPE:DEVICE`. -/
def terseLine (c : ActiveCon) : String :=
  c.name ++ ":" ++ c.conType ++ ":" ++ c.device

/-- `nmcli -t -f NAME,TYPE,DEVICE con show --active | grep -qE ":wifi$"`
(line 17): some output line ends with the literal `:wifi`.  Because each
line is `NAME:TYPE:DEVICE`, the end-anchored pattern tests the DEVICE
field, not the TYPE field. -/
def grepActiveWifi (cons : List ActiveCon) : Bool :=
  cons.any (fun c => ":wifi".data.isSuffixOf (terseLine c).data)

/-- `is_sta_up` from `firepi-wifi-online.sh`, lines 16-23: the grep over
the active-connections terse listing, then nonempty IPv4, not in the
`10.42.*` AP subnet, `GENERAL.STATE` at least 100, tested in that order
with early returns. -/
def is_sta_up (cons : List ActiveCon) (o : IfaceObs) : Bool :=
  if !grepActiveWifi cons then false
  else if o.ip == "" then false
  else if inApSubnet o.ip then false
  else Nat.ble 100 o.state

/-- Environment of one watchdog tick (`firepi-wifi-online.sh`): existence
of the lock and pending files, the cooldown marker's age in seconds
(`none` = file absent), the active-connections listing, and the
interface observation used by `is_sta_up`. -/
structure TickEnv where
  lockFileExists : Bool
  pendingExists : Bool
  cooldownAge : Option Int
  activeCons : List ActiveCon
  obs : IfaceObs

/-- Which exit the watchdog tick took. -/
inductive TickOutcome where
  | skipLock
  | skipPending
  | skipCooldown
  | staOk
  | startAp
deriving Repr, DecidableEq

/-- `firepi-wifi-online.sh`, lines 13-40: `[[ -f $LOCK ]]` and
`[[ -f $PENDING ]]` sentinels (bare file-existence tests), the cooldown
age check (`(( age < 300 ))`), `is_sta_up`, and otherwise
`firepi-softap.sh start 30min`. -/
def watchdogTick (env : TickEnv) : TickOutcome :=
  if env.lockFileExists then .skipLock
  else if env.pendingExists then .skipPending
  else
    let cooldownSkip :=
      match env.cooldownAge with
      | some a => decide (a < 300)
      | none => false
    if cooldownSkip then .skipCooldown
    else if is_sta_up env.activeCons env.obs then .staOk
    else .startAp

/-- `waitForRebootAndReload`'s loop from `static/js/admin.js`, lines
155-169, run over a finite prefix of probe outcomes (`true` = `pingOnce`
returned ok).  Returns `true` when `location.reload()` fired within the
prefix; `false` means the loop consumed the whole prefix and rescheduled
itself — there is no other way out of the loop. -/
def proberRedirects : Bool → List Bool → Bool
  | _, [] => false
  | seenDown, ok :: rest =>
    if !ok then proberRedirects true rest
    else if seenDown then true
    else proberRedirects seenDown rest

/-- The only text `waitForRebootAndReload` ever puts on screen — the
`progressUpdate` call at function entry. -/
def waitingMessage : String :=
  "Waiting for device to restart..."

/-- Observable outcome of the prober over a finite probe prefix. -/
structure ProberRun where
  redirected : Bool
  finalMessage : String
deriving Repr, DecidableEq

/-- The whole of `waitForRebootAndReload`: one message at entry, then the
`seenDown` loop; the message is never updated afterwards. -/
def waitForReboot (outcomes : List Bool) : ProberRun :=
  { redirected := proberRedirects false outcomes,
    finalMessage := waitingMessage }

/-- `${MAC//:/}` — the MAC with colons removed. -/
def macHex (mac : String) : List Char :=
  mac.data.filter (fun c => !(c == ':'))

/-- `TAIL="${HEX:6:6}"` uppercased — `wifi_scripts/firepi-softap.sh`
lines 105-107. -/
def macTail6 (mac : String) : List Char :=
  (((macHex mac).drop 6).take 6).map Char.toUpper

/-- `SSID="FirePi-${TAIL_UP}"`. -/
def apSsid (mac : String) : String :=
  "FirePi-" ++ String.mk (macTail6 mac)

/-- `PSK="FirePi${TAIL_UP}"`. -/
def apPsk (mac : String) : String :=
  "FirePi" ++ String.mk (macTail6 mac)

/-- Spec-side refinement definition, from the spec's words: the last 6 hex
digits of the MAC (colon-stripped, uppercased). -/
def specLast6 (mac : String) : List Char :=
  ((macHex mac).drop ((macHex mac).length - 6)).map Char.toUpper

/-! ### Helper lemmas -/

/-- If some poll iteration in `[1..20]` satisfies the break condition,
the loop's final observation satisfies it. -/
lemma goodObs_finalObs (poll : Nat → IfaceObs)
    (h : ∃ i, 1 ≤ i ∧ i ≤ 20 ∧ goodObs (poll i) = true) :
    goodObs (finalObs poll) = true := by
  obtain ⟨i, h1, h2, hg⟩ := h
  have hmem : i ∈ List.range' 1 20 := by
    rw [List.mem_range'_1]
    exact ⟨h1, by omega⟩
  have hsome : (firstGoodIdx poll).isSome := by
    rw [firstGoodIdx, List.find?_isSome]
    exact ⟨i, hmem, hg⟩
  obtain ⟨j, hj⟩ := Option.isSome_iff_exists.mp hsome
  rw [firstGoodIdx] at hj
  have hgj := List.find?_some hj
  rw [finalObs, firstGoodIdx, hj]
  simpa using hgj

/-- If no poll iteration in `[1..20]` satisfies the break condition,
the loop's final observation is the 20th and does not satisfy it. -/
lemma not_goodObs_finalObs (poll : Nat → IfaceObs)
    (h : ∀ i, 1 ≤ i → i ≤ 20 → goodObs (poll i) = false) :
    goodObs (finalObs poll) = false := by
  have hnone : firstGoodIdx poll = none := by
    rw [firstGoodIdx, List.find?_eq_none]
    intro i hmem
    rw [List.mem_range'_1] at hmem
    simp only [Bool.not_eq_true]
    exact h i hmem.1 (by omega)
  rw [finalObs, hnone]
  exact h 20 (by omega) (by omega)

/-- With `seenDown` already set, the loop redirects exactly when some
later probe succeeds. -/
lemma proberRedirects_seenDown (s : List Bool) :
    proberRedirects true s = true ↔ ∃ j, s.get? j = some true := by
  induction s with
  | nil => simp [proberRedirects]
  | cons ok rest ih =>
    cases ok with
    | false =>
      simp only [proberRedirects, Bool.not_false, if_true]
      rw [ih]
      constructor
      · rintro ⟨j, hj⟩
        exact ⟨j + 1, by simpa using hj⟩
      · rintro ⟨j, hj⟩
        cases j with
        | zero => simp at hj
        | succ j' => exact ⟨j', by simpa using hj⟩
    | true =>
      simp only [proberRedirects, Bool.not_true, if_false, if_true]
      constructor
      · intro _
        exact ⟨0, rfl⟩
      · intro _
        rfl

/-! ### Claim theorems -/

/-- Claim C1: for every pending credential pair whose SSID is nonempty,
if the run reaches the bounded poll (the STA profile exists or the
connect command succeeds) and some iteration in `[1..20]` observes a
nonempty IPv4 address outside the `10.42.*` AP subnet with interface
state at least 100, then the Switch Executor deletes the AP profile,
deletes the pending-credentials file, writes a fresh cooldown marker,
and exits reporting success (exit code 0). -/
theorem claim_C1_switch_success (env : SwitchEnv) (p : Pending)
    (hl : env.lockHeld = false)
    (hp : env.pendingFile = some p)
    (hs : p.ssid ≠ "")
    (hc : env.staProfileExists = true ∨ env.connectOk = true)
    (hgood : ∃ i, 1 ≤ i ∧ i ≤ 20 ∧ goodObs (env.poll i) = true) :
    (runSwitch env).apProfileDeleted = true ∧
    (runSwitch env).pendingDeleted = true ∧
    (runSwitch env).cooldownWritten = true ∧
    (runSwitch env).exit = ExitStatus.code 0 := by
  have hfin := goodObs_finalObs env.poll hgood
  rcases hc with h | h <;> simp [runSwitch, hl, hp, hs, h, hfin]

/-- Concrete switch environment for the C1 witness: lock free, pending
`{ssid := HomeNet}`, an existing STA profile, and a poll that observes
`192.168.1.50` at state 100 from the third iteration on. -/
def envC1 : SwitchEnv :=
  { lockHeld := false,
    pendingFile := some { ssid := "HomeNet", psk := "hunter2" },
    staProfileExists := true, connectOk := true,
    poll := fun i => if 3 ≤ i then { ip := "192.168.1.50", state := 100 }
                     else { ip := "10.42.0.1", state := 100 },
    softapEnv := { staConnectedAtEntry := true, apUpOk := true,
                   staConnectedAtTimeout := true },
    apBefore := { profileExists := true, active := true } }

/-- Concrete instantiation of C1 at `envC1`. -/
theorem claim_C1_witness :
    (runSwitch envC1).apProfileDeleted = true ∧
    (runSwitch envC1).pendingDeleted = true ∧
    (runSwitch envC1).cooldownWritten = true ∧
    (runSwitch envC1).exit = ExitStatus.code 0 :=
  claim_C1_switch_success envC1 { ssid := "HomeNet", psk := "hunter2" }
    rfl rfl (by decide) (Or.inl rfl) ⟨3, by decide, by decide, by decide⟩

/-- Claim C2: for every pending credential pair whose SSID is nonempty,
if the run reaches the poll and no iteration in `[1..20]` observes a
good address, the Switch Executor invokes the AP controller's start,
deletes the pending-credentials file, and exits reporting failure
(exit code 1); provided the device is not already listed as connected
when the AP controller starts and activating the AP profile succeeds,
the AP is active after the executor exits. -/
theorem claim_C2_switch_revert (env : SwitchEnv) (p : Pending)
    (hl : env.lockHeld = false)
    (hp : env.pendingFile = some p)
    (hs : p.ssid ≠ "")
    (hc : env.staProfileExists = true ∨ env.connectOk = true)
    (hbad : ∀ i, 1 ≤ i → i ≤ 20 → goodObs (env.poll i) = false)
    (hentry : env.softapEnv.staConnectedAtEntry = false)
    (hup : env.softapEnv.apUpOk = true) :
    (runSwitch env).softapStartCalled = true ∧
    (runSwitch env).pendingDeleted = true ∧
    (runSwitch env).exit = ExitStatus.code 1 ∧
    (runSwitch env).apAfter.active = true := by
  have hfin := not_goodObs_finalObs env.poll hbad
  rcases hc with h | h <;>
    simp [runSwitch, hl, hp, hs, h, hfin, softapMain, hentry, hup]

/-- Concrete switch environment for the C2 witness: pending
`{ssid := HomeNet}`, an existing STA profile, and a poll whose 20
observations all stay inside the `10.42.*` AP subnet. -/
def envC2 : SwitchEnv :=
  { lockHeld := false,
    pendingFile := some { ssid := "HomeNet", psk := "wrongpw" },
    staProfileExists := true, connectOk := false,
    poll := fun _ => { ip := "10.42.0.1", state := 100 },
    softapEnv := { staConnectedAtEntry := false, apUpOk := true,
                   staConnectedAtTimeout := false },
    apBefore := { profileExists := true, active := true } }

/-- Concrete instantiation of C2 at `envC2`. -/
theorem claim_C2_witness :
    (runSwitch envC2).softapStartCalled = true ∧
    (runSwitch envC2).pendingDeleted = true ∧
    (runSwitch envC2).exit = ExitStatus.code 1 ∧
    (runSwitch envC2).apAfter.active = true :=
  claim_C2_switch_revert envC2 { ssid := "HomeNet", psk := "wrongpw" }
    rfl rfl (by decide) (Or.inl rfl) (fun _ _ _ => rfl) rfl rfl

/-- Counterexample to claim C3 as stated: a run that reads the pending
file (lock free, pending present with a nonempty SSID) but in which no
STA profile exists and `nmcli dev wifi connect` fails.  `set -Eeuo
pipefail` aborts the script at that command, before any `rm -f
"$PENDING"` line runs, so the executor exits with the pending file still
present. -/
theorem claim_C3_counterexample :
    (runSwitch { lockHeld := false,
                 pendingFile := some { ssid := "HomeNet", psk := "pw" },
                 staProfileExists := false, connectOk := false,
                 poll := fun _ => { ip := "", state := 30 },
                 softapEnv := { staConnectedAtEntry := false, apUpOk := true,
                                staConnectedAtTimeout := false },
                 apBefore := { profileExists := true, active := true } }).pendingDeleted
      = false ∧
    (runSwitch { lockHeld := false,
                 pendingFile := some { ssid := "HomeNet", psk := "pw" },
                 staProfileExists := false, connectOk := false,
                 poll := fun _ => { ip := "", state := 30 },
                 softapEnv := { staConnectedAtEntry := false, apUpOk := true,
                                staConnectedAtTimeout := false },
                 apBefore := { profileExists := true, active := true } }).exit
      = ExitStatus.errexit := by
  constructor <;> decide

/-- Claim C3 as amended: every run that reads the pending-credentials
file deletes it before exiting, on every exit path except the one in
which no STA profile exists for the SSID and the unguarded
`nmcli dev wifi connect` call fails — there `set -Eeuo pipefail` aborts
the script immediately and the pending file survives the run. -/
theorem claim_C3_amended (env : SwitchEnv) (p : Pending)
    (hl : env.lockHeld = false)
    (hp : env.pendingFile = some p)
    (hreach : p.ssid = "" ∨ env.staProfileExists = true ∨ env.connectOk = true) :
    (runSwitch env).pendingDeleted = true := by
  rcases hreach with h | h
  · simp [runSwitch, hl, hp, h]
  · by_cases hs : p.ssid = ""
    · simp [runSwitch, hl, hp, hs]
    · by_cases hfin : goodObs (finalObs env.poll) = true <;>
        rcases h with h | h <;>
          simp [runSwitch, hl, hp, hs, h, hfin]

/-- Concrete instantiation of the amended C3: the success run of the C1
witness deletes the pending file. -/
theorem claim_C3_amended_witness :
    (runSwitch { lockHeld := false,
                 pendingFile := some { ssid := "HomeNet", psk := "pw" },
                 staProfileExists := true, connectOk := false,
                 poll := fun _ => { ip := "192.168.1.50", state := 100 },
                 softapEnv := { staConnectedAtEntry := true, apUpOk := true,
                                staConnectedAtTimeout := true },
                 apBefore := { profileExists := true, active := true } }).pendingDeleted
      = true :=
  claim_C3_amended _ { ssid := "HomeNet", psk := "pw" } rfl rfl (Or.inr (Or.inl rfl))

/-- Claim C4: when the advisory lock is already held, a second run of the
Switch Executor performs zero side effects — it deletes no AP profile,
attempts no STA connection, spawns no AP controller, deletes neither the
pending file nor the cooldown marker (writes nothing), leaves the AP
state unchanged — and exits 0. -/
theorem claim_C4_lock_contention (env : SwitchEnv)
    (hl : env.lockHeld = true) :
    (runSwitch env).pendingDeleted = false ∧
    (runSwitch env).apProfileDeleted = false ∧
    (runSwitch env).staConnectAttempted = false ∧
    (runSwitch env).softapStartCalled = false ∧
    (runSwitch env).softapStopCalled = false ∧
    (runSwitch env).cooldownWritten = false ∧
    (runSwitch env).exit = ExitStatus.code 0 ∧
    (runSwitch env).apAfter = env.apBefore := by
  rw [runSwitch, hl]
  exact ⟨rfl, rfl, rfl, rfl, rfl, rfl, rfl, rfl⟩

/-- Concrete instantiation of C4. -/
theorem claim_C4_witness :
    (runSwitch { lockHeld := true,
                 pendingFile := some { ssid := "HomeNet", psk := "pw" },
                 staProfileExists := false, connectOk := true,
                 poll := fun _ => { ip := "192.168.1.50", state := 100 },
                 softapEnv := { staConnectedAtEntry := false, apUpOk := true,
                                staConnectedAtTimeout := false },
                 apBefore := { profileExists := true, active := true } }).pendingDeleted
        = false ∧
    (runSwitch { lockHeld := true,
                 pendingFile := some { ssid := "HomeNet", psk := "pw" },
                 staProfileExists := false, connectOk := true,
                 poll := fun _ => { ip := "192.168.1.50", state := 100 },
                 softapEnv := { staConnectedAtEntry := false, apUpOk := true,
                                staConnectedAtTimeout := false },
                 apBefore := { profileExists := true, active := true } }).exit
        = ExitStatus.code 0 := by
  have h := claim_C4_lock_contention
    { lockHeld := true,
      pendingFile := some { ssid := "HomeNet", psk := "pw" },
      staProfileExists := false, connectOk := true,
      poll := fun _ => { ip := "192.168.1.50", state := 100 },
      softapEnv := { staConnectedAtEntry := false, apUpOk := true,
                     staConnectedAtTimeout := false },
      apBefore := { profileExists := true, active := true } } rfl
  exact ⟨h.1, h.2.2.2.2.2.2.1⟩

/-- Claim C5 concerns a code bug: a completed, successful switch run
leaves `instance/wifi_switch.lock` in existence (the script creates it
with `exec 9>"$LOCK"` and no code ever removes it; only the advisory
flock is released on exit), and the watchdog's step-1 sentinel is a bare
`[[ -f "$LOCK" ]]` file-existence test — so a later tick, run with no
executor alive and no pending file, still returns immediately at the
lock sentinel instead of proceeding, contradicting the claim. -/
theorem claim_C5_stale_lockfile :
    (runSwitch { lockHeld := false,
                 pendingFile := some { ssid := "HomeNet", psk := "pw" },
                 staProfileExists := true, connectOk := true,
                 poll := fun _ => { ip := "192.168.1.50", state := 100 },
                 softapEnv := { staConnectedAtEntry := true, apUpOk := true,
                                staConnectedAtTimeout := true },
                 apBefore := { profileExists := true, active := true } }).exit
        = ExitStatus.code 0 ∧
    (runSwitch { lockHeld := false,
                 pendingFile := some { ssid := "HomeNet", psk := "pw" },
                 staProfileExists := true, connectOk := true,
                 poll := fun _ => { ip := "192.168.1.50", state := 100 },
                 softapEnv := { staConnectedAtEntry := true, apUpOk := true,
                                staConnectedAtTimeout := true },
                 apBefore := { profileExists := true, active := true } }).lockFileExists
        = true ∧
    watchdogTick { lockFileExists := true, pendingExists := false,
                   cooldownAge := none, activeCons := [],
                   obs := { ip := "", state := 30 } }
        = TickOutcome.skipLock := by
  refine ⟨by decide, by decide, by decide⟩

/-- Claim C6: whenever the cooldown marker exists with age strictly less
than 300 seconds, the watchdog tick does not start the AP — regardless of
the STA observation (in particular even when `is_sta_up` would report
STA down). -/
theorem claim_C6_cooldown_suppresses_ap (env : TickEnv) (a : Int)
    (hcd : env.cooldownAge = some a) (hfresh : a < 300) :
    watchdogTick env ≠ TickOutcome.startAp := by
  rw [watchdogTick, hcd]
  by_cases hl : env.lockFileExists = true
  · simp [hl]
  · by_cases hpd : env.pendingExists = true
    · simp [hl, hpd]
    · simp [hl, hpd, hfresh]

/-- Concrete instantiation of C6: cooldown aged 10 s, STA observably
down (no active wifi connection, no address), AP still not started. -/
theorem claim_C6_witness :
    (10 : Int) < 300 ∧
    watchdogTick { lockFileExists := false, pendingExists := false,
                   cooldownAge := some 10, activeCons := [],
                   obs := { ip := "", state := 30 } }
      ≠ TickOutcome.startAp :=
  ⟨by decide,
   claim_C6_cooldown_suppresses_ap
     { lockFileExists := false, pendingExists := false,
       cooldownAge := some 10, activeCons := [],
       obs := { ip := "", state := 30 } } 10 rfl (by decide)⟩

/-- A genuine active wifi connection as nmcli lists it in terse output:
a `FirePiSTA-` profile of type `802-11-wireless`, active on `wlan0`.
Its terse line is `FirePiSTA-HomeNet:802-11-wireless:wlan0`. -/
def stdWifiCon : ActiveCon :=
  { name := "FirePiSTA-HomeNet", conType := "802-11-wireless", device := "wlan0" }

/-- Claim C7 concerns a code bug: the predicate's first check,
`grep -qE ":wifi$"` over `NAME:TYPE:DEVICE` terse lines, end-anchors on
the DEVICE field — and the terse TYPE of a wifi connection prints as
`802-11-wireless` anyway — so the line of a real active wifi connection
(`FirePiSTA-HomeNet:802-11-wireless:wlan0`) never matches.  Hence
`is_sta_up` returns `false` for every interface observation even with
that connection active; in particular at `{ip := 192.168.1.50,
state := 100}`, where the claim's other three conditions (nonempty IPv4,
outside `10.42.*`, state at least 100) all hold, refuting the claimed
"returns true exactly when all four conditions hold". -/
theorem claim_C7_sta_up_never_true :
    (∀ o : IfaceObs, is_sta_up [stdWifiCon] o = false) ∧
    stdWifiCon.conType = "802-11-wireless" ∧
    ("192.168.1.50" : String) ≠ "" ∧
    inApSubnet "192.168.1.50" = false ∧
    100 ≤ (100 : Nat) :=
  ⟨fun _ => rfl, by decide, by decide, by decide, by decide⟩

/-- Claim C8: the prober's redirect is edge-triggered on a down-to-up
transition: over any finite probe-outcome sequence, `location.reload()`
fires exactly when some failed probe occurs strictly before some
successful probe.  In particular `[fail, fail, success]` redirects and an
all-success sequence never does. -/
theorem claim_C8_edge_triggered_redirect (s : List Bool) :
    proberRedirects false s = true ↔
      ∃ i j, i < j ∧ s.get? i = some false ∧ s.get? j = some true := by
  induction s with
  | nil =>
    simp [proberRedirects]
  | cons ok rest ih =>
    cases ok with
    | false =>
      simp only [proberRedirects, Bool.not_false, if_true]
      rw [proberRedirects_seenDown]
      constructor
      · rintro ⟨j, hj⟩
        exact ⟨0, j + 1, Nat.succ_pos j, rfl, by simpa using hj⟩
      · rintro ⟨i, j, hij, _, hj⟩
        cases j with
        | zero => omega
        | succ j' => exact ⟨j', by simpa using hj⟩
    | true =>
      have hstep : proberRedirects false (true :: rest) =
          proberRedirects false rest := rfl
      rw [hstep, ih]
      constructor
      · rintro ⟨i, j, hij, hi, hj⟩
        exact ⟨i + 1, j + 1, by omega, by simpa using hi, by simpa using hj⟩
      · rintro ⟨i, j, hij, hi, hj⟩
        cases i with
        | zero => simp at hi
        | succ i' =>
          cases j with
          | zero => omega
          | succ j' =>
            exact ⟨i', j', by omega, by simpa using hi, by simpa using hj⟩

/-- Counterexample to claim C9 as stated: after 100 consecutive failed
probes — at one probe per 2 s, over three minutes of wall time, well past
the claimed 60 s deadline — the prober has not redirected, the loop has
not stopped (`redirected = false` means the loop consumed the whole
prefix and rescheduled itself), and the only on-screen text is still the
initial waiting message, not a manual-reconnect instruction. -/
theorem claim_C9_counterexample :
    (waitForReboot (List.replicate 100 false)).redirected = false ∧
    (waitForReboot (List.replicate 100 false)).finalMessage = waitingMessage := by
  constructor
  · decide
  · rfl

/-- Auxiliary for the amended C9: with any `seenDown` value, a run of
failed probes never redirects. -/
lemma proberRedirects_replicate_false (sd : Bool) (n : Nat) :
    proberRedirects sd (List.replicate n false) = false := by
  induction n generalizing sd with
  | zero => rfl
  | succ n ih => simpa [List.replicate_succ, proberRedirects] using ih true

/-- Claim C9 as amended: the prober's polling loop has no deadline — for
every number of consecutive failed probes it has neither redirected nor
stopped, and the screen still shows only the initial waiting message;
no manual-reconnect instruction is ever produced. -/
theorem claim_C9_amended (n : Nat) :
    (waitForReboot (List.replicate n false)).redirected = false ∧
    (waitForReboot (List.replicate n false)).finalMessage = waitingMessage :=
  ⟨proberRedirects_replicate_false false n, rfl⟩

/-- Claim C10: for every MAC address whose colon-stripped form has the
standard 12 hex digits, the AP controller derives
`SSID = "FirePi-" ++ last6hex(MAC)` and `PSK = "FirePi" ++ last6hex(MAC)`
where `last6hex` is the spec's “last 6 hex digits of the MAC”
(uppercased).  Determinism across invocations and reboots is immediate:
`apSsid`/`apPsk` are pure functions of the MAC alone. -/
theorem claim_C10_ap_credentials (mac : String)
    (hlen : (macHex mac).length = 12) :
    apSsid mac = "FirePi-" ++ String.mk (specLast6 mac) ∧
    apPsk mac = "FirePi" ++ String.mk (specLast6 mac) := by
  have htail : macTail6 mac = specLast6 mac := by
    rw [macTail6, specLast6, hlen]
    congr 1
    apply List.take_of_length_le
    simp [List.length_drop, hlen]
  rw [apSsid, apPsk, htail]
  exact ⟨rfl, rfl⟩

/-- Concrete instantiation of C10 at MAC `aa:bb:cc:dd:ee:ff`. -/
theorem claim_C10_witness :
    (macHex "aa:bb:cc:dd:ee:ff").length = 12 ∧
    (apSsid "aa:bb:cc:dd:ee:ff"
        = "FirePi-" ++ String.mk (specLast6 "aa:bb:cc:dd:ee:ff") ∧
     apPsk "aa:bb:cc:dd:ee:ff"
        = "FirePi" ++ String.mk (specLast6 "aa:bb:cc:dd:ee:ff")) :=
  ⟨by decide, claim_C10_ap_credentials "aa:bb:cc:dd:ee:ff" (by decide)⟩

end FirePi
